import Mathlib

/-!
Shallow embedding of the feedback-form component in
src/src/components/SentimentAnalysisForm.tsx (the variant in
src/unnamed/part_000 is a near-duplicate; where the two differ the named
file is taken as the authority, as the claims cite it for every symbol).

Conventions of the embedding:
* JavaScript strings are Lean `String`s viewed through their `data`
  (list of characters).  JS `s.trim()` is `jsTrim`, JS string truthiness
  (non-empty string) is `strTruthy`, JS `s.length` is `jsLen` (code-unit
  versus code-point differences do not matter for the properties below).
* The component state hooks become the record `FormState`.  The `isDarkMode`
  flag and the media-query effect are purely presentational and carry no
  form logic, so they are not part of the record; `hoveredRating` is kept
  because it is component state, though no rule below reads it.
* `fetch` is modelled by an oracle value `FetchOutcome` chosen by the
  environment: either an HTTP response (status, status text, body) or a
  network-level fault carrying `some message` when the thrown value is an
  Error object and `none` otherwise.  `submitToWebhook` returns, besides
  the `WebhookResponse` of the source, a Bool recording whether `fetch`
  was invoked (network I/O performed).
* The asynchronous `handleSubmit` is split at its `await` into
  `handleSubmitStart` (the synchronous prefix: mark touched, validate,
  enter the loading state and build the payload) and `submitFinish`
  (the continuation applied to the webhook result).  `clickSubmit` is a
  user click on the submit button: the handler only runs when the button
  is rendered and not disabled (`disabled={isLoading || !isFormValid}`),
  which is the only way the submit action can be triggered in the source.
* The `useEffect` that recomputes `isFormValid` from the four data fields
  runs after every field change; the field-change events below apply it
  atomically (`recomputeValidity`).
-/

namespace SentimentForm

/-- JS string truthiness: a string is truthy iff it is non-empty. -/
def strTruthy (s : String) : Bool := !s.data.isEmpty

/-- JS String.prototype.trim: drop leading and trailing whitespace. -/
def jsTrim (s : String) : String :=
  String.mk (((s.data.dropWhile Char.isWhitespace).reverse.dropWhile
    Char.isWhitespace).reverse)

/-- JS string length (for the ASCII strings of the rules below this agrees
with the UTF-16 length the source reads). -/
def jsLen (s : String) : Nat := s.data.length

/-- A character admitted by the character class of the email regex
(the source pattern is written with a caret-class excluding whitespace
and the at-sign): any character that is neither whitespace nor the
at-sign. -/
def okChar (c : Char) : Bool := !c.isWhitespace && c != '@'

/-- The domain part of the email regex after the at-sign must contain a dot
that is neither its first nor its last character (the pattern demands at
least one admitted character on each side of some dot).  Expressed as a
bounded search over positions. -/
def hasMidDot (d : List Char) : Bool :=
  (List.range d.length).any fun j =>
    decide (1 ≤ j) && decide (j + 2 ≤ d.length) && (d.getD j '@' == '.')

/-- The anchored email regex of `validateEmail` in the source: one or more
admitted characters, an at-sign, then a domain that is all admitted
characters and has a dot strictly inside it.  Because the admitted class
excludes the at-sign, the local part is exactly the maximal leading run of
admitted characters. -/
def emailMatch (cs : List Char) : Bool :=
  !(cs.takeWhile okChar).isEmpty
    && ((cs.dropWhile okChar).head? == some '@')
    && (cs.dropWhile okChar).tail.all okChar
    && hasMidDot (cs.dropWhile okChar).tail

/-- Source `validateEmail`: test the whole (untrimmed) string against the
anchored regex. -/
def validateEmail (email : String) : Bool := emailMatch email.data

/-- Modelled from the spec: the pattern description of section 4.2,
local-part at-sign domain dot tld, with no whitespace or at-sign inside the
local part or the domain and at least one dot after the at-sign.  Stated as
an explicit decomposition, to be compared with the source regex
`validateEmail`. -/
def specEmailPattern (s : String) : Prop :=
  ∃ l m t : List Char, l ≠ [] ∧ m ≠ [] ∧ t ≠ [] ∧
    l.all okChar = true ∧ m.all okChar = true ∧ t.all okChar = true ∧
    s.data = l ++ '@' :: (m ++ '.' :: t)

/-- The errors object built by `validateForm` (a key is present exactly when
the field has an error). -/
structure FormErrors where
  feedback : Option String
  name : Option String
  email : Option String
deriving DecidableEq

/-- The feedback rule of `validateForm`. -/
def feedbackError (fb : String) : Option String :=
  if !strTruthy (jsTrim fb) then some "Feedback is required"
  else if decide (jsLen (jsTrim fb) < 10) then
    some "Feedback must be at least 10 characters"
  else none

/-- The name rule of `validateForm`. -/
def nameError (nm : String) : Option String :=
  if !strTruthy (jsTrim nm) then some "Name is required" else none

/-- The email rule of `validateForm`: required first, then the regex applied
to the untrimmed string. -/
def emailError (em : String) : Option String :=
  if !strTruthy (jsTrim em) then some "Email is required"
  else if !validateEmail em then some "Please enter a valid email address"
  else none

/-- Source `validateForm` as a pure function of the three field values. -/
def validateForm (fb nm em : String) : FormErrors :=
  ⟨feedbackError fb, nameError nm, emailError em⟩

/-- The boolean `validateForm` returns: the errors object has no key. -/
def formValid (e : FormErrors) : Bool :=
  e.feedback.isNone && e.name.isNone && e.email.isNone

/-- JS truthiness of the rating state (null is falsy, a number is falsy only
when it is zero; the source only ever stores 1, 2 or 3). -/
def ratingTruthy : Option Nat → Bool
  | none => false
  | some n => n != 0

/-- Source `checkFormValidity`: presence of rating and of the three trimmed
fields, then the two content rules (feedback length, email regex). -/
def checkFormValidity (rating : Option Nat) (fb nm em : String) : Bool :=
  if !ratingTruthy rating || !strTruthy (jsTrim fb)
      || !strTruthy (jsTrim nm) || !strTruthy (jsTrim em) then
    false
  else
    !(decide (jsLen (jsTrim fb) < 10) || !validateEmail em)

/-- The per-field touched flags. -/
structure Touched where
  feedback : Bool
  name : Bool
  email : Bool
deriving DecidableEq

/-- The wire payload `FeedbackData` built in `handleSubmit`. -/
structure FeedbackData where
  rating : Nat
  feedback : String
  name : String
  email : String
  timestamp : String
deriving DecidableEq

/-- The `WebhookResponse` value of `submitToWebhook`. -/
structure WebhookResponse where
  success : Bool
  message : Option String
deriving DecidableEq

/-- Outcome of the `fetch` call, chosen by the environment: an HTTP
response, or a network-level fault whose thrown value has `some message`
when it is an Error object. -/
inductive FetchOutcome where
  | response (status : Nat) (statusText : String) (body : String)
  | fault (errMessage : Option String)
deriving DecidableEq

/-- response.ok of the fetch API: status in the success range 200..299. -/
def respOk (status : Nat) : Bool := decide (200 ≤ status ∧ status ≤ 299)

/-- Source `submitToWebhook`.  First argument is the configured
`WEBHOOK_URL` (the source normalises an absent environment variable to the
empty string, which is falsy).  The second component of the result records
whether `fetch` was invoked. -/
def submitToWebhook (url : String) (outcome : FetchOutcome) :
    WebhookResponse × Bool :=
  if !strTruthy url then
    (⟨false, some "Webhook configuration error. Please try again later."⟩,
     false)
  else
    match outcome with
    | .response st stTxt _body =>
        if respOk st then
          (⟨true, some "Feedback submitted successfully"⟩, true)
        else
          (⟨false, some ("Webhook error: " ++ toString st ++ " " ++ stTxt)⟩,
           true)
    | .fault m => (⟨false, some (m.getD "Failed to submit feedback")⟩, true)

/-- The component state (presentational dark-mode state omitted, see the
file comment). -/
structure FormState where
  selectedRating : Option Nat
  feedback : String
  name : String
  email : String
  isSubmitted : Bool
  hoveredRating : Option Nat
  isLoading : Bool
  errors : FormErrors
  touched : Touched
  submitError : String
  isFormValid : Bool
deriving DecidableEq

/-- The initial state of every hook. -/
def initialFormState : FormState :=
  ⟨none, "", "", "", false, none, false, ⟨none, none, none⟩,
   ⟨false, false, false⟩, "", false⟩

/-- The effect that keeps `isFormValid` in sync with the four data fields. -/
def recomputeValidity (s : FormState) : FormState :=
  { s with isFormValid :=
      checkFormValidity s.selectedRating s.feedback s.name s.email }

/-- User edits the feedback text (change event plus the validity effect). -/
def setFeedbackInput (s : FormState) (v : String) : FormState :=
  recomputeValidity { s with feedback := v }

/-- User edits the name field. -/
def setNameInput (s : FormState) (v : String) : FormState :=
  recomputeValidity { s with name := v }

/-- User edits the email field. -/
def setEmailInput (s : FormState) (v : String) : FormState :=
  recomputeValidity { s with email := v }

/-- User clicks one of the three rating buttons. -/
def selectRating (s : FormState) (r : Nat) : FormState :=
  recomputeValidity { s with selectedRating := some r }

/-- The state-level view of `checkFormValidity`, reading exactly the four
state variables the source closure reads. -/
def stateCheckValidity (s : FormState) : Bool :=
  checkFormValidity s.selectedRating s.feedback s.name s.email

/-- JS `x || fallback` for an optional string result field: the fallback is
used when the field is absent or an empty (falsy) string. -/
def jsOrDefault (m : Option String) (d : String) : String :=
  match m with
  | some s => if strTruthy s then s else d
  | none => d

/-- The synchronous prefix of `handleSubmit`, up to the awaited webhook
call: mark every field touched, run `validateForm` (storing the errors),
and when validation passes and a rating is selected, enter the loading
state, clear the previous submission error and build the payload (trimmed
fields plus the serialised clock value `now`).  Returns `some payload`
exactly when `submitToWebhook` is about to be invoked. -/
def handleSubmitStart (now : String) (s : FormState) :
    FormState × Option FeedbackData :=
  let errs := validateForm s.feedback s.name s.email
  let s₁ : FormState := { s with touched := ⟨true, true, true⟩, errors := errs }
  if formValid errs && ratingTruthy s.selectedRating then
    ({ s₁ with isLoading := true, submitError := "" },
     some ⟨s.selectedRating.getD 0, jsTrim s.feedback, jsTrim s.name,
           jsTrim s.email, now⟩)
  else
    (s₁, none)

/-- The disabled attribute of the submit button. -/
def submitButtonDisabled (s : FormState) : Bool :=
  s.isLoading || !s.isFormValid

/-- The render guard of the submit button: the form view is shown (not the
thank-you screen), a rating is selected and the three trimmed fields are
truthy. -/
def submitRendered (s : FormState) : Bool :=
  !s.isSubmitted && ratingTruthy s.selectedRating
    && strTruthy (jsTrim s.feedback) && strTruthy (jsTrim s.name)
    && strTruthy (jsTrim s.email)

/-- A user click on the submit control: the handler runs only when the
button is rendered and not disabled (a disabled button dispatches no click
event). -/
def clickSubmit (now : String) (s : FormState) :
    FormState × Option FeedbackData :=
  if submitRendered s && !submitButtonDisabled s then handleSubmitStart now s
  else (s, none)

/-- The continuation of `handleSubmit` after the awaited webhook call:
success shows the thank-you screen, failure stores the message (with the
generic fallback for a falsy message), and the finally-block leaves the
loading state. -/
def submitFinish (s : FormState) (r : WebhookResponse) : FormState :=
  let s' := if r.success then { s with isSubmitted := true }
            else { s with submitError :=
                     jsOrDefault r.message "Failed to submit feedback" }
  { s' with isLoading := false }

/-- Source `handleReset`. -/
def handleReset (s : FormState) : FormState :=
  { s with selectedRating := none, feedback := "", name := "", email := "",
           isSubmitted := false, errors := ⟨none, none, none⟩,
           submitError := "", isFormValid := false,
           touched := ⟨false, false, false⟩ }

/-- The rating picker block of the render function: shown whenever the form
view (not the thank-you screen) is shown. -/
def ratingPickerVisible (s : FormState) : Bool := !s.isSubmitted

/-- The feedback text-area block: form view and a truthy rating. -/
def feedbackAreaVisible (s : FormState) : Bool :=
  !s.isSubmitted && ratingTruthy s.selectedRating

/-- The contact-information block: form view, truthy rating and truthy
trimmed feedback. -/
def contactFieldsVisible (s : FormState) : Bool :=
  !s.isSubmitted && ratingTruthy s.selectedRating
    && strTruthy (jsTrim s.feedback)

/-- A fully and validly filled form, with the validity flag in sync (the
value the effect computes for these fields). -/
def validDemo : FormState :=
  ⟨some 3, "Great service, very helpful", "Acme Inc", "a@acme.com", false,
   none, false, ⟨none, none, none⟩, ⟨false, false, false⟩, "", true⟩

/-- The valid form while its submission is in flight. -/
def loadingDemo : FormState := { validDemo with isLoading := true }

/-- A form whose feedback is shorter than ten characters after trimming,
name and email valid; the validity flag is in sync (false). -/
def shortFeedbackDemo : FormState :=
  ⟨some 2, "short", "Acme Inc", "a@acme.com", false, none, false,
   ⟨none, none, none⟩, ⟨false, false, false⟩, "", false⟩

/-- The valid form with surrounding whitespace typed into the feedback
field (same trimmed value, so the validity flag stays true). -/
def spaceyDemo : FormState :=
  { validDemo with feedback := "  Great service, very helpful  " }

/-- A state on the thank-you screen. -/
def submittedDemo : FormState := { initialFormState with isSubmitted := true }

/-! Helper lemmas. -/

theorem strTruthy_false_iff (s : String) : strTruthy s = false ↔ s = "" := by
  constructor
  · intro h
    apply String.ext
    have hl : s.data = [] := by simpa [strTruthy, List.isEmpty_iff] using h
    rw [hl]
  · intro h
    subst h
    rfl

theorem strTruthy_true_iff (s : String) : strTruthy s = true ↔ s ≠ "" := by
  constructor
  · intro h he
    rw [he] at h
    exact absurd h (by decide)
  · intro h
    cases hb : strTruthy s with
    | false => exact absurd ((strTruthy_false_iff s).mp hb) h
    | true => rfl

theorem strTruthy_append (a b : String) :
    strTruthy (a ++ b) = (strTruthy a || strTruthy b) := by
  unfold strTruthy
  rw [String.data_append]
  cases a.data with
  | nil => simp
  | cons c l => simp

theorem okChar_at_sign : okChar '@' = false := by decide

theorem okChar_dot : okChar '.' = true := by decide

/-- Splitting a list of admitted characters followed by an at-sign under
takeWhile and dropWhile. -/
theorem takeWhile_split (l d : List Char) (hl : l.all okChar = true) :
    (l ++ '@' :: d).takeWhile okChar = l ∧
      (l ++ '@' :: d).dropWhile okChar = '@' :: d := by
  induction l with
  | nil =>
      constructor
      · simp [List.takeWhile_cons, okChar_at_sign]
      · simp [List.dropWhile_cons, okChar_at_sign]
  | cons c cs ih =>
      simp only [List.all_cons, Bool.and_eq_true] at hl
      obtain ⟨hc, hcs⟩ := hl
      obtain ⟨ht, hd⟩ := ih hcs
      constructor
      · simp [List.takeWhile_cons, hc, ht]
      · simp [List.dropWhile_cons, hc, hd]

/-- The bounded mid-dot search is exactly the existence of a decomposition
with a dot strictly inside the list. -/
theorem hasMidDot_iff (d : List Char) :
    hasMidDot d = true ↔ ∃ m t : List Char, m ≠ [] ∧ t ≠ [] ∧
      d = m ++ '.' :: t := by
  constructor
  · intro h
    unfold hasMidDot at h
    rw [List.any_eq_true] at h
    obtain ⟨j, hjmem, hj⟩ := h
    rw [List.mem_range] at hjmem
    simp only [Bool.and_eq_true, decide_eq_true_eq, beq_iff_eq] at hj
    obtain ⟨⟨h1, h2⟩, hdot⟩ := hj
    refine ⟨d.take j, d.drop (j + 1), ?_, ?_, ?_⟩
    · intro hnil
      have hlen : (d.take j).length = j := by
        rw [List.length_take]
        omega
      rw [hnil] at hlen
      simp at hlen
      omega
    · intro hnil
      have hlen : (d.drop (j + 1)).length = d.length - (j + 1) :=
        List.length_drop _ _
      rw [hnil] at hlen
      simp at hlen
      omega
    · conv_lhs => rw [← List.take_append_drop j d]
      congr 1
      rw [List.drop_eq_getElem_cons hjmem]
      have hget : d.getD j '@' = d[j] := List.getD_eq_getElem d '@' hjmem
      rw [← hget, hdot]
  · rintro ⟨m, t, hm, ht, rfl⟩
    unfold hasMidDot
    rw [List.any_eq_true]
    have hmpos : 0 < m.length := List.length_pos.mpr hm
    have htpos : 0 < t.length := List.length_pos.mpr ht
    have hlt : m.length < (m ++ '.' :: t).length := by
      simp
    refine ⟨m.length, ?_, ?_⟩
    · rw [List.mem_range]
      exact hlt
    · have hget : (m ++ '.' :: t).getD m.length '@' = '.' := by
        rw [List.getD_eq_getElem _ _ hlt,
          List.getElem_append_right (le_refl m.length)]
        simp
      have h2 : m.length + 2 ≤ (m ++ '.' :: t).length := by
        simp
        omega
      simp only [Bool.and_eq_true, decide_eq_true_eq, beq_iff_eq]
      exact ⟨⟨hmpos, h2⟩, hget⟩

/-- The regex matcher is exactly the decomposition into a non-empty
admitted local part, the at-sign and an admitted domain with a dot strictly
inside. -/
theorem emailMatch_iff (cs : List Char) :
    emailMatch cs = true ↔
      ∃ l d : List Char, l ≠ [] ∧ l.all okChar = true ∧ d.all okChar = true ∧
        hasMidDot d = true ∧ cs = l ++ '@' :: d := by
  constructor
  · intro h
    unfold emailMatch at h
    simp only [Bool.and_eq_true] at h
    obtain ⟨⟨⟨hne, hhead⟩, hall⟩, hdot⟩ := h
    refine ⟨cs.takeWhile okChar, (cs.dropWhile okChar).tail, ?_, ?_, hall,
      hdot, ?_⟩
    · intro hnil
      rw [hnil] at hne
      simp at hne
    · rw [List.all_eq_true]
      intro x hx
      exact List.mem_takeWhile_imp hx
    · have hsplit := List.takeWhile_append_dropWhile okChar cs
      rw [beq_iff_eq] at hhead
      cases hdw : cs.dropWhile okChar with
      | nil =>
          rw [hdw] at hhead
          simp at hhead
      | cons a r =>
          rw [hdw] at hhead hsplit
          simp only [List.head?_cons, Option.some.injEq] at hhead
          subst hhead
          simp only [List.tail_cons]
          exact hsplit.symm
  · rintro ⟨l, d, hl, hlall, hdall, hdot, rfl⟩
    unfold emailMatch
    obtain ⟨htake, hdrop⟩ := takeWhile_split l d hlall
    rw [htake, hdrop]
    simp [hdot, hdall, List.isEmpty_eq_false, hl]

/-- The source regex agrees with the pattern description of the spec. -/
theorem validateEmail_iff_spec (s : String) :
    validateEmail s = true ↔ specEmailPattern s := by
  unfold validateEmail specEmailPattern
  rw [emailMatch_iff]
  constructor
  · rintro ⟨l, d, hl, hlall, hdall, hdot, hs⟩
    obtain ⟨m, t, hm, ht, rfl⟩ := (hasMidDot_iff d).mp hdot
    simp only [List.all_append, List.all_cons, Bool.and_eq_true] at hdall
    obtain ⟨hmall, _, htall⟩ := hdall
    exact ⟨l, m, t, hl, hm, ht, hlall, hmall, htall, hs⟩
  · rintro ⟨l, m, t, hl, hm, ht, hlall, hmall, htall, hs⟩
    refine ⟨l, m ++ '.' :: t, hl, hlall, ?_, ?_, hs⟩
    · simp [List.all_append, List.all_cons, hmall, htall, okChar_dot]
    · exact (hasMidDot_iff _).mpr ⟨m, t, hm, ht, rfl⟩

/-! The claims. -/

/-- Claim C5: when no webhook endpoint URL is configured (the source
normalises an absent environment value to the falsy empty string), every
invocation of the webhook client returns the configuration-error failure,
the result does not depend on the network oracle, and no fetch is
performed (second component false); being a total function, it cannot
crash the application. -/
theorem claim_C5_missing_url (url : String) (outcome : FetchOutcome)
    (h : strTruthy url = false) :
    submitToWebhook url outcome =
      (⟨false, some "Webhook configuration error. Please try again later."⟩,
       false) := by
  simp [submitToWebhook, h]

/-- Witness for claim C5 at the empty URL and a network-fault oracle. -/
theorem claim_C5_witness :
    submitToWebhook "" (.fault none) =
      (⟨false, some "Webhook configuration error. Please try again later."⟩,
       false) :=
  claim_C5_missing_url "" (.fault none) rfl

/-- Claim C8: handleReset returns every listed field to its initial value
(rating unset, strings empty, touched flags false, errors and failure
message cleared, submitted flag false), and visibility collapses back to
only the rating picker. -/
theorem claim_C8_reset (s : FormState) :
    (handleReset s).selectedRating = none
    ∧ (handleReset s).feedback = ""
    ∧ (handleReset s).name = ""
    ∧ (handleReset s).email = ""
    ∧ (handleReset s).touched = ⟨false, false, false⟩
    ∧ (handleReset s).errors = ⟨none, none, none⟩
    ∧ (handleReset s).submitError = ""
    ∧ (handleReset s).isFormValid = false
    ∧ (handleReset s).isSubmitted = false
    ∧ ratingPickerVisible (handleReset s) = true
    ∧ feedbackAreaVisible (handleReset s) = false
    ∧ contactFieldsVisible (handleReset s) = false
    ∧ submitRendered (handleReset s) = false :=
  ⟨rfl, rfl, rfl, rfl, rfl, rfl, rfl, rfl, rfl, rfl, rfl, rfl, rfl⟩

/-- Claim C9: the submit-enabled determination checkFormValidity reads only
the rating and the three field values, is therefore independent of the
touched flags, and agrees with the full validation result: it is true
exactly when the rating is truthy and validateForm reports no error. -/
theorem claim_C9_validity_agrees :
    (∀ (rating : Option Nat) (fb nm em : String),
      checkFormValidity rating fb nm em =
        (ratingTruthy rating && formValid (validateForm fb nm em)))
    ∧ (∀ (s : FormState) (t : Touched),
        stateCheckValidity { s with touched := t } = stateCheckValidity s) := by
  constructor
  · intro rating fb nm em
    cases hr : ratingTruthy rating <;>
      cases hfb : strTruthy (jsTrim fb) <;>
        cases hnm : strTruthy (jsTrim nm) <;>
          cases hem : strTruthy (jsTrim em) <;>
            cases hlen : decide (jsLen (jsTrim fb) < 10) <;>
              cases hve : validateEmail em <;>
                simp [checkFormValidity, validateForm, formValid,
                  feedbackError, nameError, emailError, hr, hfb, hnm, hem,
                  hlen, hve]
  · intro s t
    rfl

/-- Claim C3: the email error message is reported exactly for a non-empty
trimmed string that fails the regex; the regex agrees with the
local-part at-sign domain dot tld pattern of the spec; and the four
concrete examples behave as the spec says. -/
theorem claim_C3_email_validation :
    (∀ fb nm em : String,
      ((validateForm fb nm em).email =
          some "Please enter a valid email address"
        ↔ (jsTrim em ≠ "" ∧ validateEmail em = false)))
    ∧ (∀ em : String, validateEmail em = true ↔ specEmailPattern em)
    ∧ validateEmail "a@b.co" = true
    ∧ validateEmail "a@b" = false
    ∧ validateEmail "a b@c.com" = false
    ∧ validateEmail "abc.com" = false := by
  refine ⟨?_, validateEmail_iff_spec, by decide, by decide, by decide,
    by decide⟩
  intro fb nm em
  show emailError em = some "Please enter a valid email address" ↔ _
  cases he : strTruthy (jsTrim em) with
  | false =>
      have h0 : jsTrim em = "" := (strTruthy_false_iff _).mp he
      simp only [emailError, he, Bool.not_false, if_true]
      constructor
      · intro hc
        exact absurd (Option.some.inj hc) (by decide)
      · rintro ⟨hne, -⟩
        exact absurd h0 hne
  | true =>
      have h1 : jsTrim em ≠ "" := (strTruthy_true_iff _).mp he
      cases hv : validateEmail em with
      | false => simp [emailError, he, hv, h1]
      | true => simp [emailError, he, hv]

/-- Witness for claim C3: the error message is produced for a concrete
non-empty invalid email. -/
theorem claim_C3_witness :
    (validateForm "some long feedback" "Acme Inc" "abc.com").email =
      some "Please enter a valid email address" :=
  (claim_C3_email_validation.1 "some long feedback" "Acme Inc"
    "abc.com").mpr ⟨by decide, by decide⟩

/-- Claim C4: with a configured URL, the webhook client succeeds exactly
when the oracle is an HTTP response whose status is in the success range;
a non-success status yields the status and status-text message, a fault
yields the thrown message or the generic fallback; and the result never
depends on the response body (the body is not parsed). -/
theorem claim_C4_webhook_result (url : String) (h : strTruthy url = true) :
    (∀ outcome : FetchOutcome,
      ((submitToWebhook url outcome).1.success = true ↔
        ∃ st stTxt bd, outcome = .response st stTxt bd ∧ respOk st = true))
    ∧ (∀ (st : Nat) (stTxt bd : String), respOk st = false →
        (submitToWebhook url (.response st stTxt bd)).1 =
          ⟨false, some ("Webhook error: " ++ toString st ++ " " ++ stTxt)⟩)
    ∧ (∀ m : String, (submitToWebhook url (.fault (some m))).1 = ⟨false, some m⟩)
    ∧ (submitToWebhook url (.fault none)).1 =
        ⟨false, some "Failed to submit feedback"⟩
    ∧ (∀ (st : Nat) (stTxt b₁ b₂ : String),
        submitToWebhook url (.response st stTxt b₁) =
          submitToWebhook url (.response st stTxt b₂)) := by
  refine ⟨?_, ?_, ?_, ?_, ?_⟩
  · intro outcome
    constructor
    · intro hs
      cases outcome with
      | response st stTxt bd =>
          cases hok : respOk st with
          | false => simp [submitToWebhook, h, hok] at hs
          | true => exact ⟨st, stTxt, bd, rfl, hok⟩
      | fault m => simp [submitToWebhook, h] at hs
    · rintro ⟨st, stTxt, bd, rfl, hok⟩
      simp [submitToWebhook, h, hok]
  · intro st stTxt bd hok
    simp [submitToWebhook, h, hok]
  · intro m
    simp [submitToWebhook, h]
  · simp [submitToWebhook, h]
  · intro st stTxt b₁ b₂
    rfl

/-- Witness for claim C4: concrete 200 and 500 responses. -/
theorem claim_C4_witness :
    ((submitToWebhook "https://example.com/hook"
        (.response 200 "OK" "ignored body")).1.success = true ↔
      ∃ st stTxt bd, FetchOutcome.response 200 "OK" "ignored body" =
        .response st stTxt bd ∧ respOk st = true)
    ∧ (submitToWebhook "https://example.com/hook"
        (.response 500 "Internal Server Error" "")).1 =
      ⟨false, some ("Webhook error: " ++ toString 500
        ++ " " ++ "Internal Server Error")⟩ :=
  ⟨(claim_C4_webhook_result "https://example.com/hook" (by decide)).1
      (.response 200 "OK" "ignored body"),
   (claim_C4_webhook_result "https://example.com/hook" (by decide)).2.1
      500 "Internal Server Error" "" (by decide)⟩

/-- Claim C6 as stated quantifies over every form state, but in a state on
the thank-you screen (isSubmitted) the component renders no form section at
all, so the rating picker is not always visible: the conjunction fails at
submittedDemo. -/
theorem claim_C6_counterexample :
    ¬ ∀ s : FormState,
        ratingPickerVisible s = true
        ∧ feedbackAreaVisible s = ratingTruthy s.selectedRating
        ∧ contactFieldsVisible s =
            (ratingTruthy s.selectedRating && strTruthy (jsTrim s.feedback))
        ∧ submitRendered s =
            (ratingTruthy s.selectedRating && strTruthy (jsTrim s.feedback)
              && strTruthy (jsTrim s.name) && strTruthy (jsTrim s.email)) :=
  fun hall => absurd (hall submittedDemo).1 (by decide)

/-- Claim C6 amended: in every form state that is not on the submitted
thank-you screen, section visibility is exactly the progressive-disclosure
rules: rating picker always, feedback area iff a truthy rating, contact
fields iff additionally non-empty trimmed feedback, submit control
rendered iff additionally non-empty trimmed name and email (presence
only). -/
theorem claim_C6_visibility (s : FormState) (h : s.isSubmitted = false) :
    ratingPickerVisible s = true
    ∧ feedbackAreaVisible s = ratingTruthy s.selectedRating
    ∧ contactFieldsVisible s =
        (ratingTruthy s.selectedRating && strTruthy (jsTrim s.feedback))
    ∧ submitRendered s =
        (ratingTruthy s.selectedRating && strTruthy (jsTrim s.feedback)
          && strTruthy (jsTrim s.name) && strTruthy (jsTrim s.email)) := by
  simp [ratingPickerVisible, feedbackAreaVisible, contactFieldsVisible,
    submitRendered, h]

/-- Witness for claim C6 amended at the filled, not yet submitted form. -/
theorem claim_C6_witness :
    ratingPickerVisible validDemo = true
    ∧ feedbackAreaVisible validDemo = ratingTruthy validDemo.selectedRating
    ∧ contactFieldsVisible validDemo =
        (ratingTruthy validDemo.selectedRating
          && strTruthy (jsTrim validDemo.feedback))
    ∧ submitRendered validDemo =
        (ratingTruthy validDemo.selectedRating
          && strTruthy (jsTrim validDemo.feedback)
          && strTruthy (jsTrim validDemo.name)
          && strTruthy (jsTrim validDemo.email)) :=
  claim_C6_visibility validDemo rfl

theorem webhookErrorMsg_truthy (st : Nat) (stTxt : String) :
    strTruthy ("Webhook error: " ++ toString st ++ " " ++ stTxt) = true := by
  have h : strTruthy "Webhook error: " = true := by decide
  simp [strTruthy_append, h]

/-- Claim C1: while a submission is in flight (isLoading true) the submit
button is disabled, so a click dispatches nothing: the state is unchanged
and no webhook submission (hence no network call) is initiated.  In
particular a second click right after an accepted first one, with the
first webhook call still pending, initiates no second submission. -/
theorem claim_C1_no_double_submit (now now' : String) (s : FormState) :
    (s.isLoading = true → clickSubmit now s = (s, none))
    ∧ ((clickSubmit now s).2.isSome = true →
        clickSubmit now' (clickSubmit now s).1 =
          ((clickSubmit now s).1, none)) := by
  constructor
  · intro h
    simp [clickSubmit, submitButtonDisabled, h]
  · intro h
    cases hg : (submitRendered s && !submitButtonDisabled s) with
    | false => simp [clickSubmit, hg] at h
    | true =>
        cases hv : (formValid (validateForm s.feedback s.name s.email)
            && ratingTruthy s.selectedRating) with
        | false => simp [clickSubmit, hg, handleSubmitStart, hv] at h
        | true =>
            have hs1 : (clickSubmit now s).1 =
                { s with touched := ⟨true, true, true⟩,
                         errors := validateForm s.feedback s.name s.email,
                         isLoading := true, submitError := "" } := by
              simp [clickSubmit, hg, handleSubmitStart, hv]
            rw [hs1]
            simp [clickSubmit, submitButtonDisabled]

/-- Witness for claim C1: a click in the loading state is a no-op, and a
second click right after an accepted one is a no-op. -/
theorem claim_C1_witness :
    clickSubmit "t1" loadingDemo = (loadingDemo, none)
    ∧ clickSubmit "t2" (clickSubmit "t1" validDemo).1 =
        ((clickSubmit "t1" validDemo).1, none) :=
  ⟨(claim_C1_no_double_submit "t1" "t2" loadingDemo).1 rfl,
   (claim_C1_no_double_submit "t1" "t2" validDemo).2 (by decide)⟩

/-- Claim C2: whenever the trimmed feedback is shorter than ten characters,
validation produces the required message (trimmed length zero) or the
at-least-ten message (length one to nine), checkFormValidity is false, and
in any state whose validity flag is in sync with the fields (as the effect
keeps it) the rendered submit control is not enabled, whatever the name
and email hold. -/
theorem claim_C2_short_feedback_blocks (s : FormState)
    (h : jsLen (jsTrim s.feedback) < 10)
    (hsync : s.isFormValid =
      checkFormValidity s.selectedRating s.feedback s.name s.email) :
    (jsLen (jsTrim s.feedback) = 0 →
      (validateForm s.feedback s.name s.email).feedback =
        some "Feedback is required")
    ∧ (1 ≤ jsLen (jsTrim s.feedback) →
      (validateForm s.feedback s.name s.email).feedback =
        some "Feedback must be at least 10 characters")
    ∧ checkFormValidity s.selectedRating s.feedback s.name s.email = false
    ∧ (submitRendered s && !submitButtonDisabled s) = false := by
  have h3 : checkFormValidity s.selectedRating s.feedback s.name s.email
      = false := by
    cases hfb : strTruthy (jsTrim s.feedback) with
    | false => simp [checkFormValidity, hfb]
    | true => simp [checkFormValidity, hfb, h]
  refine ⟨?_, ?_, h3, ?_⟩
  · intro h0
    have hnil : (jsTrim s.feedback).data = [] := List.length_eq_zero.mp h0
    simp [validateForm, feedbackError, strTruthy, hnil]
  · intro h1
    have hne : (jsTrim s.feedback).data ≠ [] := by
      intro hc
      rw [jsLen, hc] at h1
      simp at h1
    simp [validateForm, feedbackError, strTruthy, List.isEmpty_eq_false,
      hne, h]
  · simp [submitButtonDisabled, hsync, h3]

/-- Witness for claim C2 at a concrete five-character feedback with valid
name and email. -/
theorem claim_C2_witness :
    (validateForm shortFeedbackDemo.feedback shortFeedbackDemo.name
        shortFeedbackDemo.email).feedback =
      some "Feedback must be at least 10 characters"
    ∧ checkFormValidity shortFeedbackDemo.selectedRating
        shortFeedbackDemo.feedback shortFeedbackDemo.name
        shortFeedbackDemo.email = false
    ∧ (submitRendered shortFeedbackDemo
        && !submitButtonDisabled shortFeedbackDemo) = false := by
  have h := claim_C2_short_feedback_blocks shortFeedbackDemo (by decide)
    (by decide)
  exact ⟨h.2.1 (by decide), h.2.2.1, h.2.2.2⟩

/-- Claim C7: when an initiated submission resolves with a non-success
HTTP status, the form lands in the failed state: the submission error is
the webhook message carrying the status, the rating and the three fields
are unchanged, the form is editable (not submitted, not loading), and a
further click on submit initiates a retry. -/
theorem claim_C7_failure_preserves (now now' url : String) (s : FormState)
    (st : Nat) (stTxt bd : String)
    (hstart : (clickSubmit now s).2.isSome = true)
    (hurl : strTruthy url = true)
    (hbad : respOk st = false) :
    (submitFinish (clickSubmit now s).1
        (submitToWebhook url (.response st stTxt bd)).1).submitError =
      "Webhook error: " ++ toString st ++ " " ++ stTxt
    ∧ (submitFinish (clickSubmit now s).1
        (submitToWebhook url (.response st stTxt bd)).1).selectedRating =
      s.selectedRating
    ∧ (submitFinish (clickSubmit now s).1
        (submitToWebhook url (.response st stTxt bd)).1).feedback = s.feedback
    ∧ (submitFinish (clickSubmit now s).1
        (submitToWebhook url (.response st stTxt bd)).1).name = s.name
    ∧ (submitFinish (clickSubmit now s).1
        (submitToWebhook url (.response st stTxt bd)).1).email = s.email
    ∧ (submitFinish (clickSubmit now s).1
        (submitToWebhook url (.response st stTxt bd)).1).isSubmitted = false
    ∧ (submitFinish (clickSubmit now s).1
        (submitToWebhook url (.response st stTxt bd)).1).isLoading = false
    ∧ (clickSubmit now' (submitFinish (clickSubmit now s).1
        (submitToWebhook url (.response st stTxt bd)).1)).2.isSome = true := by
  have hweb : (submitToWebhook url (.response st stTxt bd)).1 =
      ⟨false, some ("Webhook error: " ++ toString st ++ " " ++ stTxt)⟩ := by
    simp [submitToWebhook, hurl, hbad]
  cases hg : (submitRendered s && !submitButtonDisabled s) with
  | false => simp [clickSubmit, hg] at hstart
  | true =>
      cases hv : (formValid (validateForm s.feedback s.name s.email)
          && ratingTruthy s.selectedRating) with
      | false => simp [clickSubmit, hg, handleSubmitStart, hv] at hstart
      | true =>
          have hg' := hg
          simp only [Bool.and_eq_true, Bool.not_eq_true'] at hg'
          obtain ⟨hrend, hdis⟩ := hg'
          have hdis' := hdis
          simp only [submitButtonDisabled, Bool.or_eq_false_iff,
            Bool.not_eq_false] at hdis'
          obtain ⟨hnl, hfv⟩ := hdis'
          have hrend' := hrend
          simp only [submitRendered, Bool.and_eq_true,
            Bool.not_eq_true'] at hrend'
          obtain ⟨⟨⟨⟨hsub, hrat⟩, hfb⟩, hnm⟩, hem⟩ := hrend'
          have hs1 : (clickSubmit now s).1 =
              { s with touched := ⟨true, true, true⟩,
                       errors := validateForm s.feedback s.name s.email,
                       isLoading := true, submitError := "" } := by
            simp [clickSubmit, hg, handleSubmitStart, hv]
          rw [hs1, hweb]
          have hmsg := webhookErrorMsg_truthy st stTxt
          refine ⟨?_, ?_, ?_, ?_, ?_, ?_, ?_, ?_⟩
          · simp [submitFinish, jsOrDefault, hmsg]
          · simp [submitFinish, jsOrDefault]
          · simp [submitFinish, jsOrDefault]
          · simp [submitFinish, jsOrDefault]
          · simp [submitFinish, jsOrDefault]
          · simp [submitFinish, jsOrDefault, hsub]
          · simp [submitFinish, jsOrDefault]
          · have hv' := hv
            simp only [Bool.and_eq_true] at hv'
            obtain ⟨hvf, hvr⟩ := hv'
            simp [clickSubmit, submitFinish, jsOrDefault, submitRendered,
              submitButtonDisabled, handleSubmitStart, hvf, hvr, hsub, hrat,
              hfb, hnm, hem, hfv]

/-- Witness for claim C7: the filled valid form, a configured URL and a
concrete 500 response. -/
theorem claim_C7_witness :
    (submitFinish (clickSubmit "t1" validDemo).1
        (submitToWebhook "https://example.com/hook"
          (.response 500 "Internal Server Error" "")).1).submitError =
      "Webhook error: " ++ toString 500 ++ " " ++ "Internal Server Error"
    ∧ (submitFinish (clickSubmit "t1" validDemo).1
        (submitToWebhook "https://example.com/hook"
          (.response 500 "Internal Server Error" "")).1).selectedRating =
      validDemo.selectedRating
    ∧ (submitFinish (clickSubmit "t1" validDemo).1
        (submitToWebhook "https://example.com/hook"
          (.response 500 "Internal Server Error" "")).1).feedback =
      validDemo.feedback
    ∧ (submitFinish (clickSubmit "t1" validDemo).1
        (submitToWebhook "https://example.com/hook"
          (.response 500 "Internal Server Error" "")).1).name = validDemo.name
    ∧ (submitFinish (clickSubmit "t1" validDemo).1
        (submitToWebhook "https://example.com/hook"
          (.response 500 "Internal Server Error" "")).1).email =
      validDemo.email
    ∧ (submitFinish (clickSubmit "t1" validDemo).1
        (submitToWebhook "https://example.com/hook"
          (.response 500 "Internal Server Error" "")).1).isSubmitted = false
    ∧ (submitFinish (clickSubmit "t1" validDemo).1
        (submitToWebhook "https://example.com/hook"
          (.response 500 "Internal Server Error" "")).1).isLoading = false
    ∧ (clickSubmit "t2" (submitFinish (clickSubmit "t1" validDemo).1
        (submitToWebhook "https://example.com/hook"
          (.response 500 "Internal Server Error" "")).1)).2.isSome = true :=
  claim_C7_failure_preserves "t1" "t2" "https://example.com/hook" validDemo
    500 "Internal Server Error" "" (by decide) (by decide) (by decide)

/-- Claim C10: every submission that passes validation posts the selected
rating and the trimmed feedback, name and email, plus the serialised clock
value as timestamp; the posted strings can differ from the raw field
contents (spaceyDemo), while validation itself is applied to the untrimmed
email string (a leading blank makes a valid address fail). -/
theorem claim_C10_payload (now : String) (s : FormState)
    (h : (clickSubmit now s).2.isSome = true) :
    (clickSubmit now s).2 =
      some ⟨s.selectedRating.getD 0, jsTrim s.feedback, jsTrim s.name,
            jsTrim s.email, now⟩
    ∧ (clickSubmit now spaceyDemo).2.isSome = true
    ∧ jsTrim spaceyDemo.feedback ≠ spaceyDemo.feedback
    ∧ validateEmail " a@b.co" = false
    ∧ validateEmail (jsTrim " a@b.co") = true := by
  refine ⟨?_, rfl, by decide, by decide, by decide⟩
  cases hg : (submitRendered s && !submitButtonDisabled s) with
  | false => simp [clickSubmit, hg] at h
  | true =>
      cases hv : (formValid (validateForm s.feedback s.name s.email)
          && ratingTruthy s.selectedRating) with
      | false => simp [clickSubmit, hg, handleSubmitStart, hv] at h
      | true => simp [clickSubmit, hg, handleSubmitStart, hv]

/-- Witness for claim C10: the payload built from the form with extra
whitespace around the feedback carries the trimmed strings. -/
theorem claim_C10_witness :
    (clickSubmit "2025-01-01T00:00:00.000Z" spaceyDemo).2 =
      some ⟨3, "Great service, very helpful", "Acme Inc", "a@acme.com",
            "2025-01-01T00:00:00.000Z"⟩ :=
  (claim_C10_payload "2025-01-01T00:00:00.000Z" spaceyDemo (by decide)).1

end SentimentForm
